import Mathlib

/-!
Verification of the baker project generator: a shallow embedding of the
answer-resolution engine (`parser.rs`, `question.rs`) and the template
materialization pipeline (`template/processor.rs`), together with the
ignore-pattern compiler (`ignore.rs`) and the hook runner (`hooks.rs`).

External collaborators (the MiniJinja rendering engine, the filesystem, the
globset matcher, interactive prompts, subprocesses) are modelled as explicit
oracle parameters, exactly at the interfaces the source code uses.
-/

namespace Baker

/-! ## JSON values (`serde_json::Value`) -/

/-- Model of `serde_json::Value`.  Objects are association lists; numbers are
modelled as integers (the only numbers the embedded code produces are choice
indices). -/
inductive Json where
  | null
  | bool (b : Bool)
  | num (n : Int)
  | str (s : String)
  | arr (xs : List Json)
  | obj (fields : List (String × Json))

/-- First-match lookup in an object's field list. -/
def lookupField : List (String × Json) → String → Option Json
  | [], _ => none
  | (k, v) :: rest, key => if k = key then some v else lookupField rest key

/-- Model of `Value::get(key)`: `None` on non-objects. -/
def Json.get : Json → String → Option Json
  | .obj fields, key => lookupField fields key
  | _, _ => none

/-- Model of `Value::is_null`. -/
def Json.isNull : Json → Bool
  | .null => true
  | _ => false

/-- Model of `Value::as_str`. -/
def Json.asStr : Json → Option String
  | .str s => some s
  | _ => none

/-- Model of `Value::as_bool`. -/
def Json.asBool : Json → Option Bool
  | .bool b => some b
  | _ => none

theorem Json.isNull_iff (v : Json) : v.isNull = true ↔ v = .null := by
  cases v <;> simp [Json.isNull]

/-! ## Errors (`error.rs`)

Only the constructors the embedded code produces are carried; the payloads of
error variants coming from external collaborators are collapsed to message
strings. -/

inductive Error where
  /-- `Error::ProcessError { source_path, e }` -/
  | processError (source_path e : String)
  /-- `BakerError::HookError(msg)` -/
  | hookError (msg : String)
  /-- An I/O failure reported by the filesystem (`Error::IoError`). -/
  | ioError (msg : String)
  /-- A rendering failure reported by the template engine
  (`Error::MinijinjaError` / `BakerError::TemplateError`). -/
  | templateError (msg : String)
  /-- A prompt/config failure reported by the interactive prompt
  (`BakerError::ConfigError`). -/
  | configError (msg : String)
deriving DecidableEq

/-! ## Path model

Paths are strings over the Unix `std::path::MAIN_SEPARATOR`, `"/"`. -/

/-- Character-level model of `str::ends_with`. -/
def endsWithStr (s suffix : String) : Bool :=
  suffix.data.isSuffixOf s.data

/-- Character-level model of `str::starts_with`. -/
def startsWithStr (s p : String) : Bool :=
  p.data.isPrefixOf s.data

/-- Splitting a character list at a separator character; the accumulator holds
the current piece reversed. -/
def splitSepAux (sep : Char) : List Char → List Char → List (List Char)
  | [], acc => [acc.reverse]
  | c :: cs, acc =>
    if c = sep then acc.reverse :: splitSepAux sep cs []
    else splitSepAux sep cs (c :: acc)

/-- Character-level model of `str::split` with a `char` pattern (as used with
`MAIN_SEPARATOR` and `'\n'`): `""` splits to `[""]`, and adjacent separators
produce empty pieces. -/
def splitSep (sep : Char) (s : String) : List String :=
  (splitSepAux sep s.data []).map (fun cs => ⟨cs⟩)

/-- Character-level model of `str::trim`: whitespace removed from both
ends. -/
def trimStr (s : String) : String :=
  ⟨((s.data.dropWhile Char.isWhitespace).reverse.dropWhile
      Char.isWhitespace).reverse⟩

/-- Model of `str::strip_suffix(suffix).unwrap_or(s)`: remove the trailing
occurrence of `suffix` when present, otherwise return `s` unchanged. -/
def stripSuffixStr (s suffix : String) : String :=
  if endsWithStr s suffix then ⟨s.data.take (s.data.length - suffix.data.length)⟩
  else s

/-- The normal components of a path string, modelling `Path::components`:
empty segments and `.` segments are dropped. -/
def pathComponents (s : String) : List String :=
  (splitSep '/' s).filter (fun c => c != "" && c != ".")

/-- Model of `Path::join` / `PathBuf::push`: an absolute right-hand side
replaces the base, otherwise a separator is inserted when needed. -/
def pathJoin (base p : String) : String :=
  if startsWithStr p "/" then p
  else if endsWithStr base "/" || base = "" then base ++ p
  else base ++ "/" ++ p

/-- Joining path components with the separator. -/
def joinComponents : List String → String
  | [] => ""
  | [c] => c
  | c :: cs => c ++ "/" ++ joinComponents cs

/-- Model of `Path::file_name`: the last normal component, `none` when the
path has no normal component or ends in `..`. -/
def fileName (s : String) : Option String :=
  match (pathComponents s).getLast? with
  | some ".." => none
  | some c => some c
  | none => none

/-- Model of `Path::strip_prefix`: succeeds when the base's normal components
(with matching absoluteness) are a prefix of the path's components; the result
is the remaining components. -/
def stripRoot (base s : String) : Option String :=
  let bc := pathComponents base
  let sc := pathComponents s
  if (startsWithStr base "/" == startsWithStr s "/") && bc.isPrefixOf sc then
    some (joinComponents (sc.drop bc.length))
  else none

/-! ## The template rendering engine (external collaborator)

`renderer.rs` defines the `TemplateRenderer` trait; `template/processor.rs`
additionally uses its `render_path` form and a named-template `render` form,
and `question.rs` uses an `execute_expression` form for `ask_if`.  The engine
is an external collaborator, so it is modelled as an arbitrary record of
(pure) oracle functions over which the theorems quantify. -/

structure TemplateRenderer where
  /-- `render(template, context)` (`parser.rs` / `question.rs` form). -/
  render : String → Json → Except Error String
  /-- `render(template, context, template_name)`
  (`template/processor.rs` form). -/
  renderWithName : String → Json → Option String → Except Error String
  /-- `render_path(path, context)`. -/
  renderPath : String → Json → Except Error String
  /-- `execute_expression(expr, context)`, the boolean `ask_if` evaluator. -/
  executeExpression : String → Json → Except Error Bool

/-! ## `template/operation.rs` -/

/-- Model of `TemplateOperation`. -/
inductive TemplateOperation where
  | copy (source target : String) (target_exists : Bool)
  | write (target content : String) (target_exists : Bool)
  | createDirectory (target : String) (target_exists : Bool)
  | ignore (source : String)
deriving DecidableEq

/-! ## `template/processor.rs` -/

/-- Model of `TemplateProcessor` together with its filesystem oracles:
`isFile` models `Path::is_file`, `pathExists` models `Path::exists`, and
`readToString` models `fs::read_to_string`. -/
structure TemplateProcessor where
  engine : TemplateRenderer
  /-- `GlobSet::is_match` of the compiled bakerignore set. -/
  bakerignoreMatch : String → Bool
  template_root : String
  output_root : String
  answers : Json
  template_suffix : String
  isFile : String → Bool
  pathExists : String → Bool
  readToString : String → Except Error String

/-- Model of `TemplateProcessor::has_valid_rendered_path_parts`: split both
paths on the separator and fail when a non-empty source segment is paired with
an empty rendered segment. -/
def TemplateProcessor.has_valid_rendered_path_parts (_tp : TemplateProcessor)
    (template_path rendered_path : String) : Bool :=
  ((splitSep '/' template_path).zip (splitSep '/' rendered_path)).all
    (fun p => p.1 == "" || !(p.2 == ""))

/-- Model of `TemplateProcessor::is_template_file`: the file name of the path
ends with the configured template suffix. -/
def TemplateProcessor.is_template_file (tp : TemplateProcessor)
    (path : String) : Bool :=
  match fileName path with
  | some n => endsWithStr n tp.template_suffix
  | none => false

/-- Model of `TemplateProcessor::render_template_entry` (`to_str_checked`
cannot fail on the modelled UTF-8 strings). -/
def TemplateProcessor.render_template_entry (tp : TemplateProcessor)
    (template_entry : String) : Except Error String :=
  match tp.engine.renderPath template_entry tp.answers with
  | .error e => .error e
  | .ok rendered_entry =>
    if !(tp.has_valid_rendered_path_parts template_entry rendered_entry) then
      .error (.processError rendered_entry "The rendered path is not valid")
    else
      .ok rendered_entry

/-- Model of `TemplateProcessor::remove_template_suffix`. -/
def TemplateProcessor.remove_template_suffix (tp : TemplateProcessor)
    (target_path : String) : String :=
  stripSuffixStr target_path tp.template_suffix

/-- Model of `TemplateProcessor::get_target_path`: strip the template-root
prefix from the rendered entry and re-root it under the output root.  The
error message mirrors `StripPrefixError`'s display. -/
def TemplateProcessor.get_target_path (tp : TemplateProcessor)
    (rendered_entry template_entry : String) : Except Error String :=
  match stripRoot tp.template_root rendered_entry with
  | none => .error (.processError template_entry "prefix not found")
  | some rest => .ok (pathJoin tp.output_root rest)

/-- Model of `TemplateProcessor::process`: render the entry path, compute the
target path and its existence, then branch on the ignore matcher and on
(is-file, is-template-file). -/
def TemplateProcessor.process (tp : TemplateProcessor)
    (template_entry : String) : Except Error TemplateOperation := do
  let rendered_entry ← tp.render_template_entry template_entry
  let target_path ← tp.get_target_path rendered_entry template_entry
  let target_exists := tp.pathExists target_path
  if tp.bakerignoreMatch template_entry then
    return .ignore rendered_entry
  match tp.isFile template_entry, tp.is_template_file rendered_entry with
  | true, true => do
    let template_content ← tp.readToString template_entry
    let template_name := fileName template_entry
    let content ← tp.engine.renderWithName template_content tp.answers template_name
    return .write (tp.remove_template_suffix target_path) content target_exists
  | true, false =>
    return .copy template_entry target_path target_exists
  | _, _ =>
    return .createDirectory target_path target_exists

/-! ## `parser.rs`: the answer resolution engine

`parser.rs` consumes a `Config` (an ordered map of keys to `ConfigItem`s) from
its `config` module; that version of the config module is not part of the
sources, so the carrier types are modelled from the spec.  All resolution
logic below (`get_value_or_default`, the defaults, `get_question_value`,
`get_context`) is translated from `parser.rs` itself. -/

/-- Modelled from the spec: the question type tag (`ConfigItemType` in the
missing config module), spec §3 `type ∈ {Text, Boolean}` (`Str`/`Bool`). -/
inductive ConfigItemType where
  | str
  | bool
deriving DecidableEq

/-- Modelled from the spec: a question declaration (`ConfigItem` in the
missing config module); fields follow spec §3 and the uses in `parser.rs`:
`help`, `item_type`, `choices` (empty means free text), `multiselect`,
`default`. -/
structure ConfigItem where
  help : String
  item_type : ConfigItemType
  choices : List String
  multiselect : Bool
  default : Option Json

/-- Modelled from the spec: the ordered question set (`Config.items`,
an `IndexMap` in the source, spec §3 `QuestionSet`). -/
structure Config where
  items : List (String × ConfigItem)

/-- `QuestionType` from `parser.rs`. -/
inductive QuestionType where
  | multipleChoice
  | singleChoice
  | text
  | yesNo
deriving DecidableEq

/-- The interactive prompt functions from `prompt.rs`
(`prompt_multiple_choice`, `prompt_single_choice`, `prompt_boolean`,
`prompt_string`) are external, interactive collaborators; they are modelled as
oracle functions with the argument shapes of the source. -/
structure Prompts where
  prompt_multiple_choice : String → String → ConfigItem → Except Error (String × Json)
  prompt_single_choice :
    String → String → ConfigItem → Json → Except Error (String × Json)
  prompt_boolean : String → String → Json → Except Error (String × Json)
  prompt_string : String → String → ConfigItem → Json → Except Error (String × Json)

/-- A prompt oracle is key-faithful when a successful prompt reports the key
it was asked for (the real `prompt_*` functions all return `Ok((key, …))`). -/
def Prompts.echoesKeys (p : Prompts) : Prop :=
  (∀ h k c r, p.prompt_multiple_choice h k c = .ok r → r.1 = k) ∧
  (∀ h k c d r, p.prompt_single_choice h k c d = .ok r → r.1 = k) ∧
  (∀ h k d r, p.prompt_boolean h k d = .ok r → r.1 = k) ∧
  (∀ h k c d r, p.prompt_string h k c d = .ok r → r.1 = k)

/-- Model of `parser.rs::get_value_or_default`: the value at `key` in
`context` when present, otherwise the default when it is non-null, otherwise
null. -/
def get_value_or_default (key : String) (context default : Json) :
    Except Error (String × Json) :=
  .ok (key,
    match context.get key with
    | some v => v
    | none => if !default.isNull then default else .null)

/-- Model of `parser.rs::get_single_choice_default`: the index of the default
label within the choices, or 0. -/
def get_single_choice_default (item : ConfigItem) : Json :=
  .num
    (match item.default with
     | some d =>
       match d.asStr with
       | some s => Int.ofNat ((item.choices.findIdx? (· = s)).getD 0)
       | none => 0
     | none => 0)

/-- Model of `parser.rs::get_text_default`: render a string default as a
template against the current context, degrading to the empty string on a
render failure, a non-string default, or an absent default. -/
def get_text_default (item : ConfigItem) (current_context : Json)
    (engine : TemplateRenderer) : Json :=
  .str
    (match item.default with
     | some d =>
       match d.asStr with
       | some s =>
         match engine.render s current_context with
         | .ok r => r
         | .error _ => ""
       | none => ""
     | none => "")

/-- Model of `parser.rs::get_yes_no_default`: the default coerced to a
boolean, `false` when absent or non-boolean. -/
def get_yes_no_default (item : ConfigItem) : Json :=
  .bool
    (match item.default with
     | some d => d.asBool.getD false
     | none => false)

/-- Model of `parser.rs::get_question_value`: prompt only when no pre-supplied
answers object exists (`parsed` is null); otherwise look the key up in
`parsed` with `get_value_or_default`. -/
def get_question_value (p : Prompts) (help_rendered key : String)
    (config_item : ConfigItem) (default_value : Json)
    (question_type : QuestionType) (parsed : Json) :
    Except Error (String × Json) :=
  if parsed.isNull then
    match question_type with
    | .multipleChoice => p.prompt_multiple_choice help_rendered key config_item
    | .singleChoice =>
      p.prompt_single_choice help_rendered key config_item default_value
    | .yesNo => p.prompt_boolean help_rendered key default_value
    | .text => p.prompt_string help_rendered key config_item default_value
  else
    get_value_or_default key parsed default_value

/-- Model of `serde_json::Map::insert`: replace the value when the key is
present, otherwise add the binding. -/
def mapInsert (m : List (String × Json)) (k : String) (v : Json) :
    List (String × Json) :=
  if m.any (fun kv => kv.1 = k) then
    m.map (fun kv => if kv.1 = k then (k, v) else kv)
  else
    m ++ [(k, v)]

/-- One iteration of the `get_context` loop in `parser.rs`: render the help
against the answers accumulated so far, resolve the type-specific default,
and obtain the question's value. -/
def get_context_step (engine : TemplateRenderer) (p : Prompts) (parsed : Json)
    (answers : List (String × Json)) (key : String) (item : ConfigItem) :
    Except Error (String × Json) :=
  let current_context := Json.obj answers
  let help_rendered :=
    match engine.render item.help current_context with
    | .ok s => s
    | .error _ => item.help
  match item.item_type with
  | .str =>
    if item.choices.isEmpty then
      get_question_value p help_rendered key item
        (get_text_default item current_context engine) .text parsed
    else if item.multiselect then
      get_question_value p help_rendered key item .null .multipleChoice parsed
    else
      get_question_value p help_rendered key item
        (get_single_choice_default item) .singleChoice parsed
  | .bool =>
    get_question_value p help_rendered key item (get_yes_no_default item)
      .yesNo parsed

/-- The `get_context` loop over the remaining items, carrying the accumulated
answers map. -/
def get_context_items (engine : TemplateRenderer) (p : Prompts) (parsed : Json) :
    List (String × ConfigItem) → List (String × Json) →
    Except Error (List (String × Json))
  | [], answers => .ok answers
  | (key, item) :: rest, answers =>
    match get_context_step engine p parsed answers key item with
    | .error e => .error e
    | .ok kv => get_context_items engine p parsed rest (mapInsert answers kv.1 kv.2)

/-- Model of `parser.rs::get_context`: fold the question set in order into an
answer object. -/
def get_context (engine : TemplateRenderer) (p : Prompts) (config : Config)
    (parsed : Json) : Except Error Json :=
  match get_context_items engine p parsed config.items [] with
  | .error e => .error e
  | .ok answers => .ok (Json.obj answers)

/-! ## `question.rs`: the question renderer -/

/-- `Type` from `question.rs`. -/
inductive Question.Ty where
  | str
  | bool
deriving DecidableEq

/-- `Secret` from `question.rs`. -/
structure Secret where
  confirm : Bool
  mistmatch_err : String

/-- `Question` from `question.rs` (the `type` field is `ty` here). -/
structure Question where
  help : String
  ty : Question.Ty
  default : Option Json
  choices : List String
  multiselect : Bool
  secret : Option Secret
  ask_if : String

/-- `QuestionType` from `question.rs`. -/
inductive Question.QuestionType where
  | multipleChoice
  | singleChoice
  | text
  | boolean
deriving DecidableEq

/-- `RenderedQuestion` from `question.rs`. -/
structure RenderedQuestion where
  ask_if : Bool
  default : Json
  help : Option String

/-- Model of `HasQuestionType::question_type` for `Question`. -/
def Question.question_type (q : Question) : Question.QuestionType :=
  match q.ty, q.choices.isEmpty, q.multiselect with
  | .str, false, true => .multipleChoice
  | .str, false, false => .singleChoice
  | .str, true, _ => .text
  | .bool, _, _ => .boolean

/-- Model of `QuestionRenderer::get_single_choice_default`. -/
def Question.get_single_choice_default (q : Question) : Json :=
  .num
    (match q.default with
     | some d =>
       match d.asStr with
       | some s => Int.ofNat ((q.choices.findIdx? (· = s)).getD 0)
       | none => 0
     | none => 0)

/-- Model of `QuestionRenderer::get_multiple_choice_default`: the default as a
key set (an object's keys, or an array of labels mapped to `true`), projected
to a per-choice boolean vector. -/
def Question.get_multiple_choice_default (q : Question) : Json :=
  let default_value : List (String × Json) :=
    match q.default with
    | some d =>
      match d with
      | .obj fields => fields
      | .arr xs =>
        xs.filterMap (fun v => v.asStr.map (fun s => (s, Json.bool true)))
      | _ => []
    | none => []
  .arr (q.choices.map (fun choice =>
    Json.bool ((lookupField default_value choice).isSome)))

/-- Model of `QuestionRenderer::get_text_default`. -/
def Question.get_text_default (q : Question) (engine : TemplateRenderer)
    (current_context : Json) : Json :=
  .str
    (match q.default with
     | some d =>
       match d.asStr with
       | some s =>
         match engine.render s current_context with
         | .ok r => r
         | .error _ => ""
       | none => ""
     | none => "")

/-- Model of `QuestionRenderer::get_yes_no_default`. -/
def Question.get_yes_no_default (q : Question) : Json :=
  .bool
    (match q.default with
     | some d => d.asBool.getD false
     | none => false)

/-- Model of `QuestionRenderer::render_default_value`. -/
def Question.render_default_value (q : Question) (engine : TemplateRenderer)
    (answers : Json) : Json :=
  match q.question_type with
  | .multipleChoice => q.get_multiple_choice_default
  | .singleChoice => q.get_single_choice_default
  | .text => q.get_text_default engine answers
  | .boolean => q.get_yes_no_default

/-- Model of `QuestionRenderer::render`: total — a failed help render falls
back to the `ask_if` string (as in the source), and a failed `ask_if`
evaluation falls back to `true`. -/
def Question.render (q : Question) (engine : TemplateRenderer)
    (answers : Json) : RenderedQuestion :=
  let dflt := q.render_default_value engine answers
  let help :=
    match engine.render q.help answers with
    | .ok s => s
    | .error _ => q.ask_if
  let ask :=
    match engine.executeExpression q.ask_if answers with
    | .ok b => b
    | .error _ => true
  { ask_if := ask, default := dflt, help := some help }

/-! ## `ignore.rs`: the bakerignore compiler

Glob matching itself is done by the external `globset` crate; the single-glob
matcher is an oracle parameter, and a `GlobSet` is the list of its compiled
patterns. -/

/-- `DEFAULT_IGNORE_PATTERNS` from `ignore.rs`. -/
def DEFAULT_IGNORE_PATTERNS : List String :=
  [".git/**", ".git", ".hg/**", ".hg", ".svn/**", ".svn", "**/.DS_Store",
   ".bakerignore", "hooks", "hooks/**", "baker.yaml", "baker.yml", "baker.json"]

/-- Model of `str::lines`: split on newline, drop the final empty piece
produced by a trailing newline, and strip one trailing carriage return per
line. -/
def rustLines (s : String) : List String :=
  let parts := splitSep '\n' s
  let parts := if parts.getLast? = some "" then parts.dropLast else parts
  parts.map (fun l => if endsWithStr l "\r" then (⟨l.data.dropLast⟩ : String) else l)

/-- A trimmed ignore-file line contributes a pattern when it is non-empty and
not a `#` comment. -/
def keepIgnoreLine (t : String) : Bool :=
  !(t == "") && !(startsWithStr t "#")

/-- Model of `parse_bakerignore_file`, up to glob compilation: the list of
glob patterns added to the `GlobSetBuilder` — the default patterns joined
under the template root, then the kept lines of the `.bakerignore` file
(`none` when the file cannot be read). -/
def parse_bakerignore_patterns (template_root : String)
    (ignore_file : Option String) : List String :=
  DEFAULT_IGNORE_PATTERNS.map (pathJoin template_root) ++
  (match ignore_file with
   | some contents =>
     (((rustLines contents).map trimStr).filter keepIgnoreLine).map
       (pathJoin template_root)
   | none => [])

/-- Model of `GlobSet::is_match` for a compiled pattern list: some pattern
matches, where `globMatch pattern path` is the external single-glob
matcher. -/
def globSetIsMatch (globMatch : String → String → Bool)
    (patterns : List String) (path : String) : Bool :=
  patterns.any (fun pat => globMatch pat path)

/-! ## `hooks.rs`: the hook runner

Subprocess spawning, the child's stdin, and its exit status are modelled as
oracle functions keyed by the script path; the JSON serialization of the
payload is modelled by handing the structured payload to the stdin oracle. -/

structure HookWorld where
  /-- `Path::exists` for the script path. -/
  pathExists : String → Bool
  /-- `Command::spawn` outcome for the script path. -/
  spawn : String → Except Error Unit
  /-- `stdin.write_all` outcome for the payload
  `(template_dir, output_dir, context)`. -/
  writeStdin : String → String → Json → Except Error Unit
  /-- `child.wait` outcome: the exit code (`status.success()` is `code = 0`).
  -/
  wait : String → Except Error Nat

/-- Model of `hooks.rs::get_hooks`: the fixed relative hook paths under the
template root. -/
def get_hooks (template_dir : String) : String × String :=
  (pathJoin (pathJoin template_dir "hooks") "pre_gen_project",
   pathJoin (pathJoin template_dir "hooks") "post_gen_project")

/-- The display of a process exit status with code `n` (Unix). -/
def statusDisplay (n : Nat) : String :=
  "exit status: " ++ toString n

/-- Model of `hooks.rs::run_hook`: success without spawning when the script
does not exist; otherwise spawn, write the payload to the child's stdin, wait,
and fail with a `HookError` on a non-zero exit status. -/
def run_hook (w : HookWorld) (template_dir output_dir script_path : String)
    (context : Json) : Except Error Unit := do
  if !(w.pathExists script_path) then
    return ()
  w.spawn script_path
  w.writeStdin template_dir output_dir context
  let status ← w.wait script_path
  if status ≠ 0 then
    .error (.hookError ("Hook failed with status: " ++ statusDisplay status))
  else
    return ()

/-! ## Concrete oracle instances for closed runs -/

/-- A renderer whose path rendering returns `pathOut` and whose content
rendering returns `contentOut`, regardless of context. -/
def constRenderer (pathOut contentOut : String) : TemplateRenderer :=
  { render := fun _ _ => .ok pathOut
    renderWithName := fun _ _ _ => .ok contentOut
    renderPath := fun _ _ => .ok pathOut
    executeExpression := fun _ _ => .ok true }

/-- A renderer all of whose operations fail, for exercising degradation
paths. -/
def failingRenderer (msg : String) : TemplateRenderer :=
  { render := fun _ _ => .error (.templateError msg)
    renderWithName := fun _ _ _ => .error (.templateError msg)
    renderPath := fun _ _ => .error (.templateError msg)
    executeExpression := fun _ _ => .error (.templateError msg) }

/-- A concrete processor over `/template_root` and `/output_root` with the
default `.baker.j2` suffix, fully determined by its oracles. -/
def mkProcessor (pathOut contentOut : String) (ignoreAll file : Bool)
    (exists? : String → Bool) : TemplateProcessor :=
  { engine := constRenderer pathOut contentOut
    bakerignoreMatch := fun _ => ignoreAll
    template_root := "/template_root"
    output_root := "/output_root"
    answers := .null
    template_suffix := ".baker.j2"
    isFile := fun _ => file
    pathExists := exists?
    readToString := fun _ => .ok "source content" }

/-- A prompt oracle returning a fixed marker answer, used to observe whether
a prompt was consulted. -/
def markerPrompts : Prompts :=
  { prompt_multiple_choice := fun _ _ _ => .ok ("PROMPTED-KEY", .str "PROMPTED")
    prompt_single_choice := fun _ _ _ _ => .ok ("PROMPTED-KEY", .str "PROMPTED")
    prompt_boolean := fun _ _ _ => .ok ("PROMPTED-KEY", .str "PROMPTED")
    prompt_string := fun _ _ _ _ => .ok ("PROMPTED-KEY", .str "PROMPTED") }

/-- A prompt oracle that answers every question with its resolved default,
echoing the asked key. -/
def defaultingPrompts : Prompts :=
  { prompt_multiple_choice := fun _ k _ => .ok (k, .arr [])
    prompt_single_choice := fun _ k _ d => .ok (k, d)
    prompt_boolean := fun _ k d => .ok (k, d)
    prompt_string := fun _ k _ d => .ok (k, d) }

/-- A free-text question item with a plain default. -/
def sampleItem : ConfigItem :=
  { help := "Project name"
    item_type := .str
    choices := []
    multiselect := false
    default := some (.str "demo") }

/-! ## Path and string lemmas -/

theorem endsWithStr_iff {s t : String} :
    endsWithStr s t = true ↔ t.data <:+ s.data := by
  simp [endsWithStr]

theorem endsWithStr_refl (s : String) : endsWithStr s s = true :=
  endsWithStr_iff.mpr (List.suffix_refl _)

theorem endsWithStr_append_left (a b : String) :
    endsWithStr (a ++ b) b = true := by
  rw [endsWithStr_iff, String.data_append]
  exact List.suffix_append _ _

theorem endsWithStr_trans {a b c : String}
    (hab : endsWithStr a b = true) (hbc : endsWithStr b c = true) :
    endsWithStr a c = true :=
  endsWithStr_iff.mpr ((endsWithStr_iff.mp hbc).trans (endsWithStr_iff.mp hab))

theorem stripSuffixStr_append {s suf : String}
    (h : endsWithStr s suf = true) :
    stripSuffixStr s suf ++ suf = s := by
  obtain ⟨t, ht⟩ := endsWithStr_iff.mp h
  unfold stripSuffixStr
  rw [if_pos h]
  have hlen : s.data.length - suf.data.length = t.length := by
    rw [← ht, List.length_append]; omega
  have htake : s.data.take (s.data.length - suf.data.length) = t := by
    rw [hlen, ← ht, List.take_left]
  rw [htake]
  show String.mk (t ++ suf.data) = s
  rw [ht]

theorem joinComponents_endsWith :
    ∀ (l : List String) (n : String), l.getLast? = some n →
      endsWithStr (joinComponents l) n = true
  | [c], n, h => by
    simp only [List.getLast?_singleton, Option.some.injEq] at h
    subst h
    exact endsWithStr_refl c
  | c :: c' :: cs, n, h => by
    rw [List.getLast?_cons_cons] at h
    have ih := joinComponents_endsWith (c' :: cs) n h
    show endsWithStr (c ++ "/" ++ joinComponents (c' :: cs)) n = true
    exact endsWithStr_trans (endsWithStr_append_left (c ++ "/") _) ih

theorem pathJoin_endsWith (base p : String) :
    endsWithStr (pathJoin base p) p = true := by
  unfold pathJoin
  split
  · exact endsWithStr_refl p
  · split
    · exact endsWithStr_append_left _ _
    · exact endsWithStr_append_left (base ++ "/") _

theorem stripRoot_eq_some {base s rest : String}
    (h : stripRoot base s = some rest) :
    rest =
      joinComponents ((pathComponents s).drop (pathComponents base).length) := by
  simp only [stripRoot] at h
  split at h
  · exact (Option.some.injEq _ _ ▸ h).symm
  · exact absurd h (by simp)

/-! ## Lemmas about the processor's decision function -/

theorem TemplateProcessor.is_template_file_iff (tp : TemplateProcessor)
    (path : String) :
    tp.is_template_file path = true ↔
      ∃ n, fileName path = some n ∧ endsWithStr n tp.template_suffix = true := by
  unfold TemplateProcessor.is_template_file
  cases h : fileName path <;> simp [h]

theorem TemplateProcessor.valid_of_pairs (tp : TemplateProcessor)
    {entry rendered : String}
    (h : ∀ p ∈ (splitSep '/' entry).zip (splitSep '/' rendered),
        p.1 ≠ "" → p.2 ≠ "") :
    tp.has_valid_rendered_path_parts entry rendered = true := by
  unfold TemplateProcessor.has_valid_rendered_path_parts
  rw [List.all_eq_true]
  intro p hp
  have := h p hp
  by_cases h1 : p.1 = "" <;> by_cases h2 : p.2 = "" <;> simp_all

theorem TemplateProcessor.invalid_of_pair (tp : TemplateProcessor)
    {entry rendered t r : String}
    (hmem : (t, r) ∈ (splitSep '/' entry).zip (splitSep '/' rendered))
    (ht : t ≠ "") (hr : r = "") :
    tp.has_valid_rendered_path_parts entry rendered = false := by
  apply Bool.eq_false_iff.mpr
  intro hall
  have := List.all_eq_true.mp hall _ hmem
  simp [ht, hr] at this

theorem TemplateProcessor.process_eq_error_invalid (tp : TemplateProcessor)
    {entry rendered : String}
    (hrender : tp.engine.renderPath entry tp.answers = .ok rendered)
    (hvalid : tp.has_valid_rendered_path_parts entry rendered = false) :
    tp.process entry =
      .error (.processError rendered "The rendered path is not valid") := by
  simp [TemplateProcessor.process, TemplateProcessor.render_template_entry,
    hrender, hvalid, Bind.bind, Except.bind]

theorem TemplateProcessor.process_eq_ignore (tp : TemplateProcessor)
    {entry rendered rest : String}
    (hrender : tp.engine.renderPath entry tp.answers = .ok rendered)
    (hvalid : tp.has_valid_rendered_path_parts entry rendered = true)
    (hstrip : stripRoot tp.template_root rendered = some rest)
    (hmatch : tp.bakerignoreMatch entry = true) :
    tp.process entry = .ok (.ignore rendered) := by
  simp [TemplateProcessor.process, TemplateProcessor.render_template_entry,
    TemplateProcessor.get_target_path, hrender, hvalid, hstrip, hmatch,
    Bind.bind, Except.bind, Functor.map, Except.map, Pure.pure, Except.pure]

theorem TemplateProcessor.process_eq_write (tp : TemplateProcessor)
    {entry rendered rest content_src content : String}
    (hrender : tp.engine.renderPath entry tp.answers = .ok rendered)
    (hvalid : tp.has_valid_rendered_path_parts entry rendered = true)
    (hstrip : stripRoot tp.template_root rendered = some rest)
    (hmatch : tp.bakerignoreMatch entry = false)
    (hfile : tp.isFile entry = true)
    (htf : tp.is_template_file rendered = true)
    (hread : tp.readToString entry = .ok content_src)
    (hcontent :
      tp.engine.renderWithName content_src tp.answers (fileName entry) =
        .ok content) :
    tp.process entry =
      .ok (.write (stripSuffixStr (pathJoin tp.output_root rest) tp.template_suffix)
        content (tp.pathExists (pathJoin tp.output_root rest))) := by
  simp [TemplateProcessor.process, TemplateProcessor.render_template_entry,
    TemplateProcessor.get_target_path, TemplateProcessor.remove_template_suffix,
    hrender, hvalid, hstrip, hmatch, hfile, htf, hread, hcontent,
    Bind.bind, Except.bind, Functor.map, Except.map, Pure.pure, Except.pure]

theorem TemplateProcessor.process_eq_copy (tp : TemplateProcessor)
    {entry rendered rest : String}
    (hrender : tp.engine.renderPath entry tp.answers = .ok rendered)
    (hvalid : tp.has_valid_rendered_path_parts entry rendered = true)
    (hstrip : stripRoot tp.template_root rendered = some rest)
    (hmatch : tp.bakerignoreMatch entry = false)
    (hfile : tp.isFile entry = true)
    (htf : tp.is_template_file rendered = false) :
    tp.process entry =
      .ok (.copy entry (pathJoin tp.output_root rest)
        (tp.pathExists (pathJoin tp.output_root rest))) := by
  simp [TemplateProcessor.process, TemplateProcessor.render_template_entry,
    TemplateProcessor.get_target_path, hrender, hvalid, hstrip, hmatch,
    hfile, htf, Bind.bind, Except.bind, Functor.map, Except.map, Pure.pure,
    Except.pure]

theorem fileName_eq_some {s n : String} (h : fileName s = some n) :
    (pathComponents s).getLast? = some n ∧ n ≠ ".." := by
  unfold fileName at h
  split at h
  · exact absurd h (by simp)
  next c hne heq =>
    cases h
    exact ⟨heq, fun hn => hne (hn ▸ rfl)⟩
  · exact absurd h (by simp)

theorem target_endsWith_suffix (tp : TemplateProcessor) {rendered rest n : String}
    (hstrip : stripRoot tp.template_root rendered = some rest)
    (hsub : (pathComponents tp.template_root).length <
      (pathComponents rendered).length)
    (hfn : fileName rendered = some n)
    (hsuf : endsWithStr n tp.template_suffix = true) :
    endsWithStr (pathJoin tp.output_root rest) tp.template_suffix = true := by
  obtain ⟨hlast, -⟩ := fileName_eq_some hfn
  have hrest := stripRoot_eq_some hstrip
  have hdrop :
      ((pathComponents rendered).drop
        (pathComponents tp.template_root).length).getLast? = some n := by
    rw [List.getLast?_drop, if_neg (by omega)]
    exact hlast
  have h1 : endsWithStr rest n = true := by
    rw [hrest]
    exact joinComponents_endsWith _ _ hdrop
  exact endsWithStr_trans
    (endsWithStr_trans (pathJoin_endsWith tp.output_root rest) h1) hsuf

/-! ## Claims about the materialization pipeline -/

/-- C1: for every template entry whose path has a segment that is entirely a
conditional template expression, if rendering that segment against the answer
context yields the empty string (the source segment being non-empty) — i.e.
some positional segment pair has a non-empty source side and an empty rendered
side — then `process` returns `Error::ProcessError`, and in particular never
returns any operation at all (so no operation whose target path contains a
doubled separator or an empty leading/trailing segment). -/
theorem c1_path_collapse_safety (tp : TemplateProcessor)
    (entry rendered t r : String)
    (hrender : tp.engine.renderPath entry tp.answers = .ok rendered)
    (hmem : (t, r) ∈ (splitSep '/' entry).zip (splitSep '/' rendered))
    (ht : t ≠ "") (hr : r = "") :
    tp.process entry =
      .error (.processError rendered "The rendered path is not valid") ∧
    ∀ op : TemplateOperation, tp.process entry ≠ .ok op := by
  have hvalid := tp.invalid_of_pair hmem ht hr
  have hproc := tp.process_eq_error_invalid hrender hvalid
  exact ⟨hproc, fun op h => by rw [hproc] at h; exact Except.noConfusion h⟩

/-- Witness for C1 at the `it_works_7` scenario: a directory named entirely by
a conditional that renders empty. -/
theorem c1_path_collapse_safety_witness :
    (mkProcessor "/template_root/" "x" false false (fun _ => false)).process
        "/template_root/{% if create_dir %}hello{% endif %}" =
      .error (.processError "/template_root/" "The rendered path is not valid") :=
  (c1_path_collapse_safety
    (mkProcessor "/template_root/" "x" false false (fun _ => false))
    "/template_root/{% if create_dir %}hello{% endif %}" "/template_root/"
    "{% if create_dir %}hello{% endif %}" "" rfl (by decide) (by decide)
    rfl).1

/-- Counterexample to C2: in `process`, path rendering and validation happen
before the ignore check, so an entry matched by the ignore matcher can still
produce a path-invalid `ProcessError` instead of `Ignore`. -/
theorem c2_ignore_counterexample :
    (mkProcessor "/template_root/" "x" true false (fun _ => false)).bakerignoreMatch
        "/template_root/{% if create_dir %}hello{% endif %}" = true ∧
    (mkProcessor "/template_root/" "x" true false (fun _ => false)).process
        "/template_root/{% if create_dir %}hello{% endif %}" =
      .error (.processError "/template_root/" "The rendered path is not valid") :=
  ⟨rfl, rfl⟩

/-- C2 (amended): for every template entry that the ignore matcher matches,
`process` first renders and validates the entry's path; when rendering
succeeds, validation passes and the template-root prefix strips, the result is
`Ignore` carrying the rendered path — no file reading, content rendering or
type branching happens — but a path rendering or path-validity failure is
still reported for an ignored entry. -/
theorem c2_ignored_entry_returns_ignore (tp : TemplateProcessor)
    (entry rendered rest : String)
    (hrender : tp.engine.renderPath entry tp.answers = .ok rendered)
    (hvalid : tp.has_valid_rendered_path_parts entry rendered = true)
    (hstrip : stripRoot tp.template_root rendered = some rest)
    (hmatch : tp.bakerignoreMatch entry = true) :
    tp.process entry = .ok (.ignore rendered) :=
  tp.process_eq_ignore hrender hvalid hstrip hmatch

/-- Witness for C2 (amended): an ignored entry whose path renders
successfully. -/
theorem c2_ignored_entry_returns_ignore_witness :
    (mkProcessor "/template_root/hello" "x" true false (fun _ => false)).process
        "/template_root/{% if create_dir %}hello{% endif %}" =
      .ok (.ignore "/template_root/hello") :=
  c2_ignored_entry_returns_ignore
    (mkProcessor "/template_root/hello" "x" true false (fun _ => false))
    "/template_root/{% if create_dir %}hello{% endif %}"
    "/template_root/hello" "hello" rfl (by decide) (by decide) rfl

/-- C4: for every file entry strictly under the template root whose rendered
name ends with the configured template-file suffix, `process` produces a
`Write` (never a `Copy`), whose target is the rendered target path with the
suffix removed exactly once: appending the suffix back to the `Write` target
reproduces the rendered target path (so a name ending in the suffix twice
keeps one occurrence). -/
theorem c4_suffix_stripping (tp : TemplateProcessor)
    (entry rendered rest content_src content : String)
    (hrender : tp.engine.renderPath entry tp.answers = .ok rendered)
    (hvalid : ∀ p ∈ (splitSep '/' entry).zip (splitSep '/' rendered),
      p.1 ≠ "" → p.2 ≠ "")
    (hmatch : tp.bakerignoreMatch entry = false)
    (hfile : tp.isFile entry = true)
    (htf : tp.is_template_file rendered = true)
    (hstrip : stripRoot tp.template_root rendered = some rest)
    (hsub : (pathComponents tp.template_root).length <
      (pathComponents rendered).length)
    (hread : tp.readToString entry = .ok content_src)
    (hcontent :
      tp.engine.renderWithName content_src tp.answers (fileName entry) =
        .ok content) :
    tp.process entry =
      .ok (.write
        (stripSuffixStr (pathJoin tp.output_root rest) tp.template_suffix)
        content (tp.pathExists (pathJoin tp.output_root rest))) ∧
    stripSuffixStr (pathJoin tp.output_root rest) tp.template_suffix ++
        tp.template_suffix = pathJoin tp.output_root rest := by
  obtain ⟨n, hfn, hsuf⟩ := (tp.is_template_file_iff rendered).mp htf
  refine ⟨tp.process_eq_write hrender (tp.valid_of_pairs hvalid) hstrip hmatch
    hfile htf hread hcontent, ?_⟩
  exact stripSuffixStr_append (target_endsWith_suffix tp hstrip hsub hfn hsuf)

/-- Witness for C4 at the `it_works_1` scenario, with a doubly-suffixed
variant checked through the removed-exactly-once equation. -/
theorem c4_suffix_stripping_witness :
    (mkProcessor "/template_root/hello_world.txt.baker.j2" "Hello, World" false
        true (fun _ => false)).process
        "/template_root/{{file_name}}.txt.baker.j2" =
      .ok (.write "/output_root/hello_world.txt" "Hello, World" false) ∧
    ("/output_root/hello_world.txt" : String) ++ ".baker.j2" =
      "/output_root/hello_world.txt.baker.j2" := by
  have h := c4_suffix_stripping
    (mkProcessor "/template_root/hello_world.txt.baker.j2" "Hello, World" false
      true (fun _ => false))
    "/template_root/{{file_name}}.txt.baker.j2"
    "/template_root/hello_world.txt.baker.j2" "hello_world.txt.baker.j2"
    "source content" "Hello, World" rfl (by decide) rfl rfl (by decide)
    (by decide) (by decide) rfl rfl
  exact ⟨h.1, by decide⟩

/-- C9 (implicit): in the `Write` operation returned for a template file, the
`target_exists` flag records the existence of the target path before the
template suffix is stripped (the re-rooted path still bearing the suffix), not
the existence of the `Write`'s own `target` field; hence for a pre-existing
final target file the flag is `false` unless a file with the suffixed name
also exists in the output root. -/
theorem c9_target_exists_before_strip (tp : TemplateProcessor)
    (entry rendered rest content_src content : String)
    (hrender : tp.engine.renderPath entry tp.answers = .ok rendered)
    (hvalid : ∀ p ∈ (splitSep '/' entry).zip (splitSep '/' rendered),
      p.1 ≠ "" → p.2 ≠ "")
    (hmatch : tp.bakerignoreMatch entry = false)
    (hfile : tp.isFile entry = true)
    (htf : tp.is_template_file rendered = true)
    (hstrip : stripRoot tp.template_root rendered = some rest)
    (hread : tp.readToString entry = .ok content_src)
    (hcontent :
      tp.engine.renderWithName content_src tp.answers (fileName entry) =
        .ok content) :
    tp.process entry =
      .ok (.write
        (stripSuffixStr (pathJoin tp.output_root rest) tp.template_suffix)
        content (tp.pathExists (pathJoin tp.output_root rest))) ∧
    (tp.pathExists (pathJoin tp.output_root rest) = false →
      tp.process entry =
        .ok (.write
          (stripSuffixStr (pathJoin tp.output_root rest) tp.template_suffix)
          content false)) := by
  have h := tp.process_eq_write hrender (tp.valid_of_pairs hvalid) hstrip hmatch
    hfile htf hread hcontent
  exact ⟨h, fun hex => by rw [h, hex]⟩

/-- Witness for C9: the final target `/output_root/a.txt` exists on disk, yet
the returned flag is `false` because the suffixed path
`/output_root/a.txt.baker.j2` does not exist. -/
theorem c9_target_exists_before_strip_witness :
    (mkProcessor "/template_root/a.txt.baker.j2" "hi" false true
        (fun p => p == "/output_root/a.txt")).pathExists "/output_root/a.txt" =
      true ∧
    (mkProcessor "/template_root/a.txt.baker.j2" "hi" false true
        (fun p => p == "/output_root/a.txt")).process
        "/template_root/a.txt.baker.j2" =
      .ok (.write "/output_root/a.txt" "hi" false) := by
  have h := (c9_target_exists_before_strip
    (mkProcessor "/template_root/a.txt.baker.j2" "hi" false true
      (fun p => p == "/output_root/a.txt"))
    "/template_root/a.txt.baker.j2" "/template_root/a.txt.baker.j2"
    "a.txt.baker.j2" "source content" "hi" rfl (by decide) rfl rfl (by decide)
    (by decide) rfl rfl).2 (by decide)
  exact ⟨rfl, h⟩

/-- C10 (implicit): the path-validity check rejects a rendered segment only
when it is entirely empty: whenever every rendered segment paired with a
non-empty source segment is non-empty — e.g. `{{file_name}}.txt` rendering to
the non-empty remainder `.txt` — validation passes, and for a regular file
entry `process` returns a normal `Copy` operation instead of an error. -/
theorem c10_partial_segment_passes (tp : TemplateProcessor)
    (entry rendered rest : String)
    (hrender : tp.engine.renderPath entry tp.answers = .ok rendered)
    (hvalid : ∀ p ∈ (splitSep '/' entry).zip (splitSep '/' rendered),
      p.1 ≠ "" → p.2 ≠ "")
    (hmatch : tp.bakerignoreMatch entry = false)
    (hfile : tp.isFile entry = true)
    (htf : tp.is_template_file rendered = false)
    (hstrip : stripRoot tp.template_root rendered = some rest) :
    tp.has_valid_rendered_path_parts entry rendered = true ∧
    tp.process entry =
      .ok (.copy entry (pathJoin tp.output_root rest)
        (tp.pathExists (pathJoin tp.output_root rest))) := by
  have hv := tp.valid_of_pairs hvalid
  exact ⟨hv, tp.process_eq_copy hrender hv hstrip hmatch hfile htf⟩

/-- Witness for C10 at the `it_works_16` scenario: `{{file_name}}.txt` with an
empty answer set renders to `.txt`, and the entry is copied to
`/output_root/.txt` rather than rejected. -/
theorem c10_partial_segment_passes_witness :
    (mkProcessor "/template_root/.txt" "x" false true (fun _ => false)).process
        "/template_root/{{file_name}}.txt" =
      .ok (.copy "/template_root/{{file_name}}.txt" "/output_root/.txt" false) :=
  (c10_partial_segment_passes
    (mkProcessor "/template_root/.txt" "x" false true (fun _ => false))
    "/template_root/{{file_name}}.txt" "/template_root/.txt" ".txt" rfl
    (by decide) rfl rfl (by decide) (by decide)).2

/-! ## Claims about answer resolution -/

/-- Counterexample to C3: with a pre-supplied answers object present but
missing the question key, `get_question_value` returns the resolved default —
not the marker answer the interactive prompt would have produced, so the
prompt is not invoked for the missing key. -/
theorem c3_missing_key_counterexample :
    get_question_value markerPrompts "Project name" "project_name" sampleItem
        (.str "demo") .text (.obj [("other", .str "x")]) =
      .ok ("project_name", .str "demo") ∧
    markerPrompts.prompt_string "Project name" "project_name" sampleItem
        (.str "demo") = .ok ("PROMPTED-KEY", .str "PROMPTED") :=
  ⟨rfl, rfl⟩

/-- C3 (amended): when a pre-supplied answers object is given (non-null
`parsed`), a key present in it is used verbatim, a key absent from it resolves
to the passed default value, and in both cases the interactive prompt is not
invoked — the result does not depend on the prompt oracle at all.  The prompt
is consulted only when no answers object exists (`parsed` null). -/
theorem c3_presupplied_answer_lookup (p q : Prompts)
    (help_rendered key : String) (config_item : ConfigItem)
    (default_value : Json) (question_type : QuestionType) (parsed : Json)
    (hnn : parsed.isNull = false) :
    (∀ v, parsed.get key = some v →
      get_question_value p help_rendered key config_item default_value
        question_type parsed = .ok (key, v)) ∧
    (parsed.get key = none →
      get_question_value p help_rendered key config_item default_value
        question_type parsed = .ok (key, default_value)) ∧
    get_question_value p help_rendered key config_item default_value
        question_type parsed =
      get_question_value q help_rendered key config_item default_value
        question_type parsed := by
  refine ⟨fun v hv => ?_, fun hv => ?_, ?_⟩
  · simp [get_question_value, hnn, get_value_or_default, hv]
  · by_cases hd : default_value.isNull
    · rw [(Json.isNull_iff default_value).mp hd]
      simp [get_question_value, hnn, get_value_or_default, hv]
    · simp [get_question_value, hnn, get_value_or_default, hv, hd]
  · simp [get_question_value, hnn]

/-- Witness for C3 (amended): a present key is taken verbatim, an absent key
falls back to the default, independently of the prompt oracle. -/
theorem c3_presupplied_answer_lookup_witness :
    get_question_value markerPrompts "Project name" "project_name" sampleItem
        (.str "demo") .text (.obj [("project_name", .str "supplied")]) =
      .ok ("project_name", .str "supplied") ∧
    get_question_value defaultingPrompts "Project name" "project_name"
        sampleItem (.str "demo") .text (.obj []) =
      .ok ("project_name", .str "demo") := by
  refine ⟨(c3_presupplied_answer_lookup markerPrompts defaultingPrompts
    "Project name" "project_name" sampleItem (.str "demo") .text
    (.obj [("project_name", .str "supplied")]) rfl).1 (.str "supplied") rfl,
    ((c3_presupplied_answer_lookup defaultingPrompts markerPrompts
    "Project name" "project_name" sampleItem (.str "demo") .text
    (.obj []) rfl).2).1 rfl⟩

/-! ## Claims about question rendering (`question.rs`) -/

/-- C6: rendering failures in `ask_if` and in defaults never surface as
errors from question rendering (`Question.render` is total by construction): a
malformed `ask_if` expression degrades to `true` (the question is asked), and
a malformed or absent text/boolean default degrades to the empty string /
`false` respectively. -/
theorem c6_render_failures_degrade (e : TemplateRenderer) (q : Question)
    (answers : Json) :
    (∀ err, e.executeExpression q.ask_if answers = .error err →
      (q.render e answers).ask_if = true) ∧
    (q.default = none → q.get_text_default e answers = .str "") ∧
    (∀ d s err, q.default = some d → d.asStr = some s →
      e.render s answers = .error err →
      q.get_text_default e answers = .str "") ∧
    (∀ d, q.default = some d → d.asStr = none →
      q.get_text_default e answers = .str "") ∧
    (q.default = none → q.get_yes_no_default = .bool false) ∧
    (∀ d, q.default = some d → d.asBool = none →
      q.get_yes_no_default = .bool false) := by
  refine ⟨fun err h => ?_, fun h => ?_, fun d s err hd hs h => ?_,
    fun d hd hs => ?_, fun h => ?_, fun d hd hb => ?_⟩
  · simp [Question.render, h]
  · simp [Question.get_text_default, h]
  · simp [Question.get_text_default, hd, hs, h]
  · simp [Question.get_text_default, hd, hs]
  · simp [Question.get_yes_no_default, h]
  · simp [Question.get_yes_no_default, hd, hb]

/-- Witness for C6: a question whose every rendering call fails resolves to
`ask_if = true` and empty-string / `false` defaults. -/
theorem c6_render_failures_degrade_witness :
    ({ help := "h", ty := .str, default := some (.str "\x7b\x7b later \x7d\x7d"),
       choices := [], multiselect := false, secret := none,
       ask_if := "later == 1" } : Question).render
        (failingRenderer "boom") (.obj []) =
      { ask_if := true, default := .str "", help := some "later == 1" } ∧
    ({ help := "h", ty := .bool, default := some (.str "yes"),
       choices := [], multiselect := false, secret := none,
       ask_if := "" } : Question).get_yes_no_default = .bool false := by
  have h1 := (c6_render_failures_degrade (failingRenderer "boom")
    { help := "h", ty := .str, default := some (.str "\x7b\x7b later \x7d\x7d"),
      choices := [], multiselect := false, secret := none,
      ask_if := "later == 1" } (.obj [])).1 (.templateError "boom") rfl
  have h2 := (c6_render_failures_degrade (failingRenderer "boom")
    { help := "h", ty := .bool, default := some (.str "yes"),
      choices := [], multiselect := false, secret := none,
      ask_if := "" } (.obj [])).2.2.2.2.2 (.str "yes") rfl rfl
  exact ⟨by rw [← h1]; rfl, h2⟩

/-! ## Claims about the hook runner -/

/-- C8: for a hook script at one of the fixed relative paths under the
template root: when the script does not exist, `run_hook` succeeds without
consulting the spawn/write/wait oracles; when it exists, spawns and exits with
a non-zero status, `run_hook` fails with a `HookError`; when it exits with
status zero, `run_hook` succeeds. -/
theorem c8_hook_execution (w : HookWorld)
    (template_dir output_dir script_path : String) (context : Json) (n : Nat)
    (hpath : script_path = (get_hooks template_dir).1 ∨
      script_path = (get_hooks template_dir).2) :
    (w.pathExists script_path = false →
      run_hook w template_dir output_dir script_path context = .ok ()) ∧
    (w.pathExists script_path = true →
      w.spawn script_path = .ok () →
      w.writeStdin template_dir output_dir context = .ok () →
      w.wait script_path = .ok n →
      (n ≠ 0 →
        run_hook w template_dir output_dir script_path context =
          .error (.hookError ("Hook failed with status: " ++ statusDisplay n))) ∧
      (n = 0 →
        run_hook w template_dir output_dir script_path context = .ok ())) := by
  clear hpath
  constructor
  · intro h
    simp [run_hook, h, Pure.pure, Except.pure]
  · intro hex hspawn hwrite hwait
    constructor
    · intro hn
      simp [run_hook, hex, hspawn, hwrite, hwait, hn, Bind.bind, Except.bind,
        Pure.pure, Except.pure]
    · intro hn
      subst hn
      simp [run_hook, hex, hspawn, hwrite, hwait, Bind.bind, Except.bind,
        Pure.pure, Except.pure]

/-- Witness for C8: an absent pre-generation hook is a no-op even when the
subprocess oracles always fail; an existing hook exiting 1 is a `HookError`;
an existing hook exiting 0 succeeds. -/
theorem c8_hook_execution_witness :
    run_hook
      { pathExists := fun _ => false
        spawn := fun _ => .error (.ioError "unreachable")
        writeStdin := fun _ _ _ => .error (.ioError "unreachable")
        wait := fun _ => .error (.ioError "unreachable") }
      "/template_root" "/output_root"
      "/template_root/hooks/pre_gen_project" .null = .ok () ∧
    run_hook
      { pathExists := fun _ => true
        spawn := fun _ => .ok ()
        writeStdin := fun _ _ _ => .ok ()
        wait := fun _ => .ok 1 }
      "/template_root" "/output_root"
      "/template_root/hooks/pre_gen_project" .null =
      .error (.hookError "Hook failed with status: exit status: 1") ∧
    run_hook
      { pathExists := fun _ => true
        spawn := fun _ => .ok ()
        writeStdin := fun _ _ _ => .ok ()
        wait := fun _ => .ok 0 }
      "/template_root" "/output_root"
      "/template_root/hooks/pre_gen_project" .null = .ok () := by
  refine ⟨(c8_hook_execution _ "/template_root" "/output_root"
      "/template_root/hooks/pre_gen_project" .null 0 (Or.inl (by decide))).1 rfl,
    ?_, ?_⟩
  · exact ((c8_hook_execution _ "/template_root" "/output_root"
      "/template_root/hooks/pre_gen_project" .null 1
      (Or.inl (by decide))).2 rfl rfl rfl rfl).1 (by decide)
  · exact ((c8_hook_execution _ "/template_root" "/output_root"
      "/template_root/hooks/pre_gen_project" .null 0
      (Or.inl (by decide))).2 rfl rfl rfl rfl).2 rfl

/-! ## Claims about the ignore-pattern compiler -/

/-- C7: for every user-supplied ignore-file content, the compiled matcher
matches every path matched by the built-in default pattern set — user patterns
only ever add matches — and every compiled pattern is either a default pattern
or comes from a kept user line, i.e. lines that are blank or start with `#`
after trimming contribute no patterns. -/
theorem c7_default_patterns_dominate (globMatch : String → String → Bool)
    (template_root path : String) (ignore_file : Option String)
    (hdef : globSetIsMatch globMatch
      (DEFAULT_IGNORE_PATTERNS.map (pathJoin template_root)) path = true) :
    globSetIsMatch globMatch
      (parse_bakerignore_patterns template_root ignore_file) path = true ∧
    ∀ pat ∈ parse_bakerignore_patterns template_root ignore_file,
      pat ∈ DEFAULT_IGNORE_PATTERNS.map (pathJoin template_root) ∨
      ∃ contents line, ignore_file = some contents ∧ line ∈ rustLines contents ∧
        trimStr line ≠ "" ∧ startsWithStr (trimStr line) "#" = false ∧
        pat = pathJoin template_root (trimStr line) := by
  constructor
  · unfold globSetIsMatch parse_bakerignore_patterns
    rw [List.any_append]
    unfold globSetIsMatch at hdef
    rw [hdef]
    rfl
  · intro pat hmem
    unfold parse_bakerignore_patterns at hmem
    rcases List.mem_append.mp hmem with hl | hr
    · exact Or.inl hl
    · right
      cases ignore_file with
      | none => simp at hr
      | some contents =>
        obtain ⟨t, hmemt, hpat⟩ := List.mem_map.mp hr
        obtain ⟨hmemf, hkeep⟩ := List.mem_filter.mp hmemt
        obtain ⟨line, hline, htrim⟩ := List.mem_map.mp hmemf
        refine ⟨contents, line, rfl, hline, ?_, ?_, ?_⟩
        · intro h
          rw [h] at htrim
          rw [← htrim] at hkeep
          simp [keepIgnoreLine] at hkeep
        · have := (Bool.and_eq_true _ _).mp hkeep
          rw [htrim]
          simpa using this.2
        · rw [← hpat, htrim]

/-- Witness for C7: a user ignore file with a pattern line, a comment line and
a blank line; the default `.git` pattern still matches under an
equality-of-pattern glob oracle. -/
theorem c7_default_patterns_dominate_witness :
    globSetIsMatch (fun pat p => pat == p)
      (parse_bakerignore_patterns "/template_root"
        (some "*.pyc\n#comment\n\n"))
      "/template_root/.git" = true :=
  (c7_default_patterns_dominate (fun pat p => pat == p) "/template_root"
    "/template_root/.git" (some "*.pyc\n#comment\n\n") (by decide)).1

/-! ## Lemmas about the `get_context` loop -/

theorem get_question_value_key {p : Prompts} {hr k : String} {ci : ConfigItem}
    {d : Json} {qt : QuestionType} {parsed : Json} {kv : String × Json}
    (hecho : p.echoesKeys)
    (h : get_question_value p hr k ci d qt parsed = .ok kv) : kv.1 = k := by
  unfold get_question_value at h
  by_cases hn : parsed.isNull = true
  · rw [if_pos hn] at h
    cases qt
    · exact hecho.1 _ _ _ _ h
    · exact hecho.2.1 _ _ _ _ _ h
    · exact hecho.2.2.2 _ _ _ _ _ h
    · exact hecho.2.2.1 _ _ _ _ h
  · rw [if_neg hn] at h
    unfold get_value_or_default at h
    cases h
    rfl

theorem get_context_step_key {e : TemplateRenderer} {p : Prompts}
    {parsed : Json} {acc : List (String × Json)} {k : String}
    {item : ConfigItem} {kv : String × Json} (hecho : p.echoesKeys)
    (h : get_context_step e p parsed acc k item = .ok kv) : kv.1 = k := by
  unfold get_context_step at h
  split at h
  · split at h
    · exact get_question_value_key hecho h
    · split at h
      · exact get_question_value_key hecho h
      · exact get_question_value_key hecho h
  · exact get_question_value_key hecho h

theorem mapInsert_of_fresh {m : List (String × Json)} {k : String} {v : Json}
    (h : k ∉ m.map Prod.fst) : mapInsert m k v = m ++ [(k, v)] := by
  have hnc : ¬ (m.any (fun kv => kv.1 = k) = true) := by
    rw [List.any_eq_true]
    rintro ⟨kv, hkv, hk⟩
    exact h (List.mem_map.mpr ⟨kv, hkv, by simpa using hk⟩)
  unfold mapInsert
  rw [if_neg hnc]

theorem get_context_items_cons (e : TemplateRenderer) (p : Prompts)
    (parsed : Json) (k : String) (item : ConfigItem)
    (rest : List (String × ConfigItem)) (acc : List (String × Json)) :
    get_context_items e p parsed ((k, item) :: rest) acc =
      match get_context_step e p parsed acc k item with
      | .error err => .error err
      | .ok kv => get_context_items e p parsed rest (mapInsert acc kv.1 kv.2) :=
  rfl

theorem get_context_items_append (e : TemplateRenderer) (p : Prompts)
    (parsed : Json) (l₁ l₂ : List (String × ConfigItem))
    (acc : List (String × Json)) :
    get_context_items e p parsed (l₁ ++ l₂) acc =
      match get_context_items e p parsed l₁ acc with
      | .error err => .error err
      | .ok acc' => get_context_items e p parsed l₂ acc' := by
  induction l₁ generalizing acc with
  | nil => rfl
  | cons kv rest ih =>
    obtain ⟨k, item⟩ := kv
    rw [List.cons_append, get_context_items_cons, get_context_items_cons]
    cases hstep : get_context_step e p parsed acc k item with
    | error err => rfl
    | ok kv' =>
      dsimp only
      exact ih _

theorem get_context_items_keys {e : TemplateRenderer} {p : Prompts}
    {parsed : Json} (hecho : p.echoesKeys) :
    ∀ (items : List (String × ConfigItem)) (acc res : List (String × Json)),
      (items.map Prod.fst).Nodup →
      (∀ k, k ∈ items.map Prod.fst → k ∉ acc.map Prod.fst) →
      get_context_items e p parsed items acc = .ok res →
      res.map Prod.fst = acc.map Prod.fst ++ items.map Prod.fst
  | [], acc, res, _, _, h => by
    unfold get_context_items at h
    cases h
    simp
  | (k, item) :: rest, acc, res, hnodup, hfresh, h => by
    have hmap : List.map Prod.fst ((k, item) :: rest) = k :: rest.map Prod.fst :=
      rfl
    rw [hmap] at hnodup
    obtain ⟨hknotin, hnd⟩ := List.nodup_cons.mp hnodup
    rw [get_context_items_cons] at h
    cases hstep : get_context_step e p parsed acc k item with
    | error err =>
      rw [hstep] at h
      dsimp only at h
      exact absurd h (by simp)
    | ok kv =>
      rw [hstep] at h
      dsimp only at h
      have hk := get_context_step_key hecho hstep
      have hkfresh : k ∉ acc.map Prod.fst := hfresh k (by simp)
      have hins : mapInsert acc kv.1 kv.2 = acc ++ [(k, kv.2)] := by
        rw [hk]
        exact mapInsert_of_fresh hkfresh
      rw [hins] at h
      have hfr : ∀ k', k' ∈ rest.map Prod.fst →
          k' ∉ (acc ++ [(k, kv.2)]).map Prod.fst := by
        intro k' hk'
        rw [List.map_append, List.mem_append]
        rintro (hin | hin)
        · exact hfresh k' (by simp [hk']) hin
        · simp at hin
          rw [hin] at hk'
          exact hknotin hk'
      have ih := get_context_items_keys hecho rest (acc ++ [(k, kv.2)]) res
        hnd hfr h
      rw [ih, hmap]
      simp

theorem get_question_value_ok_of_not_null {p : Prompts} {hr k : String}
    {ci : ConfigItem} {d : Json} {qt : QuestionType} {parsed : Json}
    (hnn : parsed.isNull = false) :
    ∃ kv, get_question_value p hr k ci d qt parsed = .ok kv := by
  unfold get_question_value
  rw [if_neg (by simp [hnn])]
  exact ⟨_, rfl⟩

theorem get_context_step_ok_of_not_null {e : TemplateRenderer} {p : Prompts}
    {parsed : Json} {acc : List (String × Json)} {k : String}
    {item : ConfigItem} (hnn : parsed.isNull = false) :
    ∃ kv, get_context_step e p parsed acc k item = .ok kv := by
  unfold get_context_step
  split
  · split
    · exact get_question_value_ok_of_not_null hnn
    · split
      · exact get_question_value_ok_of_not_null hnn
      · exact get_question_value_ok_of_not_null hnn
  · exact get_question_value_ok_of_not_null hnn

theorem get_context_items_ok_of_not_null {e : TemplateRenderer} {p : Prompts}
    {parsed : Json} (hnn : parsed.isNull = false) :
    ∀ (items : List (String × ConfigItem)) (acc : List (String × Json)),
      ∃ res, get_context_items e p parsed items acc = .ok res
  | [], acc => ⟨acc, rfl⟩
  | (k, item) :: rest, acc => by
    obtain ⟨kv, hstep⟩ :=
      @get_context_step_ok_of_not_null e p parsed acc k item hnn
    obtain ⟨res, hres⟩ :=
      get_context_items_ok_of_not_null hnn rest (mapInsert acc kv.1 kv.2)
    refine ⟨res, ?_⟩
    unfold get_context_items
    rw [hstep]
    exact hres

theorem defaultingPrompts_echoesKeys : defaultingPrompts.echoesKeys := by
  refine ⟨fun h k c r hr => ?_, fun h k c d r hr => ?_, fun h k d r hr => ?_,
    fun h k c d r hr => ?_⟩ <;> (cases hr; rfl)

/-! ## Claim about sequential visibility -/

/-- C5: processing the question set in order, the context visible to question
`key`'s help/default rendering is exactly the answers accumulated from the
keys preceding it (`acc`, whose key list equals the preceding key list, and
which is what `get_context_step` renders against); and with a pre-supplied
answers object present, resolution never fails — for any engine, including
one whose every render of a later-key-referencing template errors, the run
produces an answer object (the failed help/default renders degrade instead of
erroring). -/
theorem c5_sequential_visibility (e : TemplateRenderer) (p : Prompts)
    (parsed : Json) (pre post : List (String × ConfigItem)) (key : String)
    (item : ConfigItem) (acc : List (String × Json))
    (hecho : p.echoesKeys)
    (hnodup : ((pre ++ (key, item) :: post).map Prod.fst).Nodup)
    (hpre : get_context_items e p parsed pre [] = .ok acc) :
    acc.map Prod.fst = pre.map Prod.fst ∧
    get_context_items e p parsed (pre ++ (key, item) :: post) [] =
      (match get_context_step e p parsed acc key item with
       | .error err => .error err
       | .ok kv => get_context_items e p parsed post (mapInsert acc kv.1 kv.2)) ∧
    (parsed.isNull = false →
      ∃ answers, get_context e p ⟨pre ++ (key, item) :: post⟩ parsed =
        .ok (.obj answers)) := by
  have hprenodup : (pre.map Prod.fst).Nodup := by
    rw [List.map_append] at hnodup
    exact (List.nodup_append.mp hnodup).1
  refine ⟨?_, ?_, ?_⟩
  · simpa using get_context_items_keys hecho pre [] acc hprenodup
      (by simp) hpre
  · rw [get_context_items_append, hpre]
    dsimp only
    rw [get_context_items_cons]
  · intro hnn
    obtain ⟨res, hres⟩ := get_context_items_ok_of_not_null hnn
      (pre ++ (key, item) :: post) []
    exact ⟨res, by unfold get_context; rw [hres]⟩

/-- Witness for C5: two text questions with failing renders; the run succeeds
and each question sees only its predecessors. -/
theorem c5_sequential_visibility_witness :
    get_context_items (failingRenderer "boom") defaultingPrompts (.obj [])
        [("a", sampleItem), ("b", sampleItem)] [] =
      .ok [("a", .str ""), ("b", .str "")] := by
  have h := c5_sequential_visibility (failingRenderer "boom") defaultingPrompts
    (.obj []) [("a", sampleItem)] [] "b" sampleItem [("a", .str "")]
    defaultingPrompts_echoesKeys (by decide) rfl
  exact h.2.1.trans (by rfl)

end Baker
